import Mathlib

/-!
# Verification of the ALATS package initializer

Shallow embedding of `src/alats__init__.py`, the sole source file of the
Autonomous Liquidity-Adaptive Trading System (ALATS) repository.  The file
consists of a module docstring (lines 1-5) and two metadata constants
(lines 7-8):

  __version__ = "1.0.0"
  __author__ = "Evolution Ecosystem ALATS Team"

We model the module body as a list of statements in a small Python-like
statement language, together with an execution semantics that threads an
explicit binding environment, can fail (Except), and may consult an
external world — so that the claims that loading never fails, creates
exactly two bindings, and is independent of the environment are
non-vacuous statements about the semantics rather than restatements of a
constant.
-/

namespace ALATS

/-- The external world a statement could in principle read (environment
variables, files, ...), modelled as a map from keys to string values.
The ALATS module body never reads it. -/
def World : Type := String → String

/-- Expressions appearing on the right-hand side of an assignment:
a string literal, or a read from the external world. -/
inductive Expr where
  | lit (s : String)
  | readExt (key : String)
deriving DecidableEq

/-- Expression evaluation.  Only `readExt` consults the world. -/
def evalExpr (w : World) : Expr → String
  | .lit s => s
  | .readExt k => w k

/-- Values a module-level name can be bound to: a string, a function
object, or a class object. -/
inductive Value where
  | str (s : String)
  | func
  | cls
deriving DecidableEq

/-- Top-level statements of a Python module body, restricted to the forms
relevant here: a docstring, an assignment of an expression to a name, a
function definition, a class definition, or raising an exception. -/
inductive Stmt where
  | docstring (s : String)
  | assign (name : String) (e : Expr)
  | defFun (name : String)
  | defClass (name : String)
  | raiseExc (msg : String)
deriving DecidableEq

/-- The module's binding environment (its attribute dictionary),
as an association list from names to values. -/
abbrev Env := List (String × Value)

/-- Binding a name, Python-assignment style: the new binding shadows and
replaces any previous binding of the same name. -/
def setVar (env : Env) (n : String) (v : Value) : Env :=
  (n, v) :: env.filter (fun p => p.1 != n)

/-- Looking a name up in the environment. -/
def lookupVar (env : Env) (n : String) : Option Value :=
  (env.find? (fun p => p.1 == n)).map Prod.snd

/-- One execution step.  A docstring has no effect on the bindings;
assignments and definitions bind a name; `raiseExc` fails. -/
def execStmt (w : World) (env : Env) : Stmt → Except String Env
  | .docstring _ => .ok env
  | .assign n e => .ok (setVar env n (.str (evalExpr w e)))
  | .defFun n => .ok (setVar env n .func)
  | .defClass n => .ok (setVar env n .cls)
  | .raiseExc m => .error m

/-- Executing a list of statements in order, stopping at the first error. -/
def execStmts (w : World) (env : Env) : List Stmt → Except String Env
  | [] => .ok env
  | s :: rest =>
    match execStmt w env s with
    | .ok env2 => execStmts w env2 rest
    | .error e => .error e

/-- `src/alats__init__.py`, line 7. -/
def __version__ : String := "1.0.0"

/-- `src/alats__init__.py`, line 8. -/
def __author__ : String := "Evolution Ecosystem ALATS Team"

/-- The module docstring, `src/alats__init__.py` lines 1-5 (the text
between the triple quotes). -/
def docstringText : String :=
  "\nAutonomous Liquidity-Adaptive Trading System (ALATS)\nVersion: 1.0.0\nMission: Autonomous management of trading strategies with dynamic liquidity adaptation\n"

/-- The module body of `src/alats__init__.py`: the docstring followed by
the two constant assignments.  Nothing else appears in the file. -/
def moduleBody : List Stmt :=
  [ .docstring docstringText,
    .assign "__version__" (.lit __version__),
    .assign "__author__" (.lit __author__) ]

/-- Importing the package: executing the module body from the empty
environment, under an arbitrary external world. -/
def runModule (w : World) : Except String Env :=
  execStmts w [] moduleBody

/-- The module environment produced by a successful import: exactly the
two metadata bindings (most recent first). -/
def finalEnv : Env :=
  [ ("__author__", .str __author__),
    ("__version__", .str __version__) ]

/-- The names the module body binds at top level. -/
def definedNames : List String :=
  moduleBody.filterMap fun s =>
    match s with
    | .assign n _ => some n
    | .defFun n => some n
    | .defClass n => some n
    | _ => none

/-- Whether a statement defines a function. -/
def isFunDef : Stmt → Bool
  | .defFun _ => true
  | _ => false

/-- Whether a statement defines a class. -/
def isClassDef : Stmt → Bool
  | .defClass _ => true
  | _ => false

/-- The package exposes no operations that could run after import and
mutate the module environment: its list of operations is empty. -/
def packageOps : List (Env → Env) := []

/-- The module environments reachable in a process that has loaded the
package: the environment produced by the import, closed under applying
any operation the package offers (there are none). -/
inductive Reachable : Env → Prop where
  | loaded (w : World) (env : Env) (h : runModule w = .ok env) : Reachable env
  | step (env : Env) (f : Env → Env) (hf : f ∈ packageOps)
      (h : Reachable env) : Reachable (f env)

/-- Importing always produces exactly `finalEnv`, whatever the world:
the module body consists only of a docstring and two literal assignments,
none of which reads the world or can fail. -/
lemma runModule_eq (w : World) : runModule w = .ok finalEnv := rfl

/- Auxiliary character-list string processing, used to relate the
docstring text to the version constant and to check version-string shape.
(Implemented over `List Char` by structural recursion so all statements
below are kernel-decidable.) -/

/-- Splitting a character list at every occurrence of the separator
character; the accumulator holds the current chunk in reverse. -/
def splitCharsAux (c : Char) : List Char → List Char → List (List Char)
  | cur, [] => [cur.reverse]
  | cur, x :: xs =>
    if x = c then cur.reverse :: splitCharsAux c [] xs
    else splitCharsAux c (x :: cur) xs

/-- Splitting a character list on a separator character. -/
def splitChars (c : Char) (l : List Char) : List (List Char) :=
  splitCharsAux c [] l

/-- The lines of the module docstring. -/
def docstringLines : List (List Char) :=
  splitChars (Char.ofNat 10) docstringText.data

/-- Whether a docstring line declares the version, i.e. starts with
the text "Version: ". -/
def isVersionLine (l : List Char) : Bool :=
  l.take 9 == "Version: ".data

/-- The version string declared in the module docstring, if any: the text
after "Version: " on the first line that starts with it. -/
def docstringVersion? : Option (List Char) :=
  (docstringLines.find? isVersionLine).map (List.drop 9)

/-- The dot-separated components of the `__version__` constant. -/
def versionParts : List (List Char) :=
  splitChars '.' __version__.data

end ALATS

namespace ALATS

/-- C1: the package's version constant `__version__` equals the literal
string "1.0.0". -/
theorem version_constant_eq : __version__ = "1.0.0" := rfl

/-- C2: the package's author constant `__author__` equals the literal
string "Evolution Ecosystem ALATS Team". -/
theorem author_constant_eq : __author__ = "Evolution Ecosystem ALATS Team" := rfl

/-- C3: importing the package always succeeds — under every external
world, executing the module body from the empty environment raises no
error, and its only effect is to produce exactly the two bindings for
`__version__` and `__author__`. -/
theorem import_succeeds_two_bindings (w : World) :
    runModule w = .ok finalEnv ∧
      lookupVar finalEnv "__version__" = some (.str "1.0.0") ∧
      lookupVar finalEnv "__author__" = some (.str "Evolution Ecosystem ALATS Team") ∧
      finalEnv.length = 2 :=
  ⟨runModule_eq w, rfl, rfl, rfl⟩

/-- C4: the module's observable surface is exactly the two constants —
the names it binds are precisely `__version__` and `__author__`, and the
module body contains no function definition and no class definition
(its docstring aside). -/
theorem surface_is_two_constants :
    definedNames = ["__version__", "__author__"] ∧
      moduleBody.all (fun s => !isFunDef s && !isClassDef s) = true := by
  exact ⟨rfl, rfl⟩

/-- C5: the two constants are immutable process-wide — the package offers
no operation that mutates the module environment, so every reachable
environment of the loaded module binds `__version__` to "1.0.0" and
`__author__` to "Evolution Ecosystem ALATS Team". -/
theorem constants_immutable (env : Env) (h : Reachable env) :
    lookupVar env "__version__" = some (.str "1.0.0") ∧
      lookupVar env "__author__" = some (.str "Evolution Ecosystem ALATS Team") := by
  induction h with
  | loaded w env h =>
    rw [runModule_eq] at h
    cases h
    exact ⟨rfl, rfl⟩
  | step env f hf h ih =>
    exact absurd hf (List.not_mem_nil f)

/-- Witness for C5: `finalEnv` is reachable (it is what loading under any
world produces), and there the two lookups give the constants. -/
theorem constants_immutable_witness :
    lookupVar finalEnv "__version__" = some (.str "1.0.0") ∧
      lookupVar finalEnv "__author__" = some (.str "Evolution Ecosystem ALATS Team") :=
  constants_immutable finalEnv (Reachable.loaded (fun _ => "") finalEnv rfl)

/-- C6: package initialization is deterministic and input-independent —
any two loads of the package, under arbitrary (possibly different)
external worlds, yield the same result, hence the same pair of constant
values. -/
theorem import_deterministic (w1 w2 : World) :
    runModule w1 = runModule w2 := rfl

/-- C7: the version stated in the module docstring on its "Version: "
line agrees with the `__version__` constant. -/
theorem docstring_version_agrees :
    docstringVersion? = some __version__.data := by decide

/-- C8: `__version__` is a well-formed three-component dotted numeric
version: it splits on the dot into exactly three parts, each a non-empty
string of decimal digits. -/
theorem version_well_formed :
    versionParts.length = 3 ∧
      versionParts.all (fun p => !p.isEmpty && p.all Char.isDigit) = true := by
  decide

/-- C9: both metadata constants are non-empty strings. -/
theorem constants_nonempty :
    __version__.length > 0 ∧ __author__.length > 0 := by decide

end ALATS
